import Mathlib

/-!
Shallow embedding of `src/gemini_function_calling.py` (class `GeminiTravelAssistant`):
the four mock data providers (`getWeather`, `getFlights`, `getHotels`,
`getAttractions`), the function-call dispatcher (`_execute_function_call`,
embedded as `execute_function_call`) and the trip-planning orchestration
(`plan_trip`).  Python dictionaries are embedded as insertion-ordered
association lists over a value type `PyVal`; exceptions are embedded with
`Except`; the hosted AI service that `plan_trip` talks to is abstracted as a
trace of chat events (function-call rounds followed by a final text or a
raised exception).
-/

namespace SmartTravelAssistant

/-- Embedding of the Python values that flow through the module: strings,
integers, float literals (only the hotel ratings 4.2 and 4.5, stored as
tenths), booleans, `None`, lists and (insertion-ordered) dicts.  Parsed JSON
numbers are stored exactly as rationals. -/
inductive PyVal where
  | noneVal
  | str (s : String)
  | int (n : Int)
  | floatTenths (n : Int)
  | rat (q : ℚ)
  | bool (b : Bool)
  | list (xs : List PyVal)
  | dict (kvs : List (String × PyVal))
  | nonfinite (lit : String)
deriving Repr

/-- A Python dict, keeping insertion order. -/
abbrev PyDict := List (String × PyVal)

/-- `d[k]` as a total lookup: `some` of the first binding of `k`, else `none`. -/
def lookup : PyDict → String → Option PyVal
  | [], _ => Option.none
  | (k, v) :: rest, key => if k = key then some v else lookup rest key

/-- Python truthiness of an `Optional[str]`: `None` and the empty string are
falsy (`if not self.weather_api_key`, `[] if not return_date else ...`). -/
def strTruthy : Option String → Bool
  | Option.none => false
  | some s => !s.isEmpty

/-- One forecast entry of the mock branch of `getWeather` (no weather API key):
fixed simulated values attached to the given date. -/
def forecastEntryMock (date_str : String) : PyVal :=
  .dict [("date", .str date_str),
         ("temperature_high", .int 28),
         ("temperature_low", .int 22),
         ("condition", .str "Partly cloudy"),
         ("humidity", .int 65),
         ("wind_speed", .int 12),
         ("precipitation_chance", .int 20)]

/-- One forecast entry of the keyed branch of `getWeather` (a weather API key
is configured; the source still only builds simulated values). -/
def forecastEntryApi (date_str : String) : PyVal :=
  .dict [("date", .str date_str),
         ("temperature_high", .int 30),
         ("temperature_low", .int 24),
         ("condition", .str "Sunny"),
         ("humidity", .int 60),
         ("wind_speed", .int 8),
         ("precipitation_chance", .int 10)]

/-- `GeminiTravelAssistant.getWeather`.  The `try` body is pure construction
and cannot raise, so the embedding is total and the `except` branch
(`error/summary` dict) is unreachable. -/
def getWeather (weather_api_key : Option String) (location : String)
    (dates : List String) : PyDict :=
  if !(strTruthy weather_api_key) then
    [("location", .str location),
     ("forecast", .list (dates.map forecastEntryMock)),
     ("summary", .str ("Pleasant weather expected in " ++ location ++
        " with temperatures ranging from 22°C to 28°C"))]
  else
    [("location", .str location),
     ("forecast", .list (dates.map forecastEntryApi)),
     ("summary", .str ("Generally sunny weather in " ++ location ++
        " with highs around 30°C"))]

/-- `GeminiTravelAssistant.getFlights`.  Prices are the f-strings
`"₹" + str(base * travelers)`; `return_flights` is `[]` when `return_date`
is falsy (absent or the empty string). -/
def getFlights (from_location to_location departure_date : String)
    (return_date : Option String) (travelers : Int) : PyDict :=
  [("search_criteria", .dict
      [("from", .str from_location),
       ("to", .str to_location),
       ("departure", .str departure_date),
       ("return", match return_date with
                  | Option.none => .noneVal
                  | some r => .str r),
       ("travelers", .int travelers)]),
   ("outbound_flights", .list
      [.dict [("airline", .str "IndiGo"),
              ("flight_number", .str "6E 123"),
              ("departure_time", .str "08:30"),
              ("arrival_time", .str "10:45"),
              ("duration", .str "2h 15m"),
              ("price", .str ("₹" ++ toString (4500 * travelers))),
              ("booking_url", .str "https://www.goindigo.in/booking")],
       .dict [("airline", .str "Air India"),
              ("flight_number", .str "AI 456"),
              ("departure_time", .str "14:20"),
              ("arrival_time", .str "16:40"),
              ("duration", .str "2h 20m"),
              ("price", .str ("₹" ++ toString (5200 * travelers))),
              ("booking_url", .str "https://www.airindia.in/booking")]]),
   ("return_flights", .list
      (if !(strTruthy return_date) then []
       else [.dict [("airline", .str "IndiGo"),
                    ("flight_number", .str "6E 789"),
                    ("departure_time", .str "18:15"),
                    ("arrival_time", .str "20:30"),
                    ("duration", .str "2h 15m"),
                    ("price", .str ("₹" ++ toString (4800 * travelers))),
                    ("booking_url", .str "https://www.goindigo.in/booking")]])),
   ("summary", .str ("Found multiple flight options from " ++ from_location ++
      " to " ++ to_location))]

/-- The `price_ranges` dict of `getHotels`: budget category to (low, high). -/
def price_ranges (budget_category : String) : Option (Nat × Nat) :=
  if budget_category = "budget" then some (1500, 3000)
  else if budget_category = "mid-range" then some (3000, 8000)
  else if budget_category = "luxury" then some (8000, 25000)
  else Option.none

/-- `price_ranges.get(budget_category, price_ranges["mid-range"])[0]`. -/
def hotelBasePrice (budget_category : String) : Nat :=
  ((price_ranges budget_category).getD (3000, 8000)).1

/-- The second hotel's price: Python `int(base_price * 1.3)`.  For every base
price the table can produce (1500, 3000 and 8000) the IEEE-double product
truncates to exactly `base * 13 / 10` (1950, 3900, 10400), which is what this
embedding computes. -/
def intMulOnePointThree (base : Nat) : Nat := base * 13 / 10

/-- `GeminiTravelAssistant.getHotels`.  The `try` body is pure construction
and cannot raise, so the embedding is total. -/
def getHotels (destination check_in check_out : String) (travelers : Int)
    (budget_category : String) : PyDict :=
  [("search_criteria", .dict
      [("destination", .str destination),
       ("check_in", .str check_in),
       ("check_out", .str check_out),
       ("travelers", .int travelers),
       ("budget_category", .str budget_category)]),
   ("hotels", .list
      [.dict [("name", .str ("Hotel Paradise " ++ destination)),
              ("category", .str budget_category),
              ("rating", .floatTenths 42),
              ("price_per_night", .str ("₹" ++ toString (hotelBasePrice budget_category))),
              ("amenities", .list [.str "Free WiFi", .str "Swimming Pool",
                                   .str "Restaurant", .str "Room Service"]),
              ("location", .str ("Central " ++ destination)),
              ("booking_url", .str "https://www.booking.com")],
       .dict [("name", .str ("Grand " ++ destination ++ " Resort")),
              ("category", .str budget_category),
              ("rating", .floatTenths 45),
              ("price_per_night", .str ("₹" ++ toString (intMulOnePointThree (hotelBasePrice budget_category)))),
              ("amenities", .list [.str "Spa", .str "Beach Access",
                                   .str "Multiple Restaurants", .str "Gym"]),
              ("location", .str ("Beach Area, " ++ destination)),
              ("booking_url", .str "https://www.agoda.com")]]),
   ("summary", .str ("Found " ++ budget_category ++ " hotels in " ++ destination ++
      " starting from ₹" ++ toString (hotelBasePrice budget_category) ++ " per night"))]

/-- The `attraction_categories` dict of `getAttractions`. -/
def attraction_categories (c : String) : Option (List String) :=
  if c = "beach" then some ["Baga Beach", "Calangute Beach", "Anjuna Beach"]
  else if c = "culture" then some ["Old Goa Churches", "Goa State Museum", "Fontainhas Latin Quarter"]
  else if c = "adventure" then some ["Water Sports at Baga", "Scuba Diving", "Parasailing"]
  else if c = "food" then some ["Thalassa Restaurant", "Fisherman\x27s Wharf", "Local Fish Markets"]
  else if c = "nightlife" then some ["Club Cubana", "Tito\x27s", "Casino Palms"]
  else if c = "shopping" then some ["Anjuna Flea Market", "Mapusa Market", "Panaji Shopping"]
  else Option.none

/-- Python `pref.lower()`: per-character lowercasing.  `Char.toLower` (like
the category keys it is compared against) is ASCII; the full-Unicode case
mappings of Python's `str.lower` are not modelled and no claim depends on
them. -/
def pyLower (s : String) : String := String.mk (s.data.map Char.toLower)

/-- The accumulation loop of `getAttractions`: for each preference whose
lowercasing is a known category, extend with the first 2 attractions of that
category. -/
def matchedAttractions : List String → List String
  | [] => []
  | pref :: rest =>
      (match attraction_categories (pyLower pref) with
       | some attrs => attrs.take 2
       | Option.none => []) ++ matchedAttractions rest

/-- The two general attractions appended after the preference loop. -/
def generalAttractions : List String := ["Fort Aguada", "Dudhsagar Falls"]

/-- Python `l[:k]` (slice with `stop` only): for negative `k` the stop index
counts from the end, clamped at 0. -/
def pySliceTo (l : List String) (k : Int) : List String :=
  if k < 0 then l.take ((l.length : Int) + k).toNat else l.take k.toNat

/-- The `day_wise_suggestions` comprehension of `getAttractions`:
`day_{i+1} : recommended_attractions[i*2:(i+1)*2]` for
`i in range(min(trip_duration, len(recommended_attractions)//2))`, over the
full (untruncated) recommended list. -/
def dayWise (full : List String) (trip_duration : Int) : PyDict :=
  (List.range (min trip_duration ((full.length : Int) / 2)).toNat).map
    (fun i => ("day_" ++ toString (i + 1),
               .list (((full.drop (i * 2)).take 2).map PyVal.str)))

/-- `GeminiTravelAssistant.getAttractions`.  The `try` body is pure
construction and cannot raise, so the embedding is total.  The summary
reports the length of the recommended list before truncation. -/
def getAttractions (destination : String) (preferences : List String)
    (trip_duration : Int) : PyDict :=
  let recommended_attractions := matchedAttractions preferences ++ generalAttractions
  [("destination", .str destination),
   ("preferences", .list (preferences.map PyVal.str)),
   ("recommended_attractions",
      .list ((pySliceTo recommended_attractions (trip_duration * 2)).map PyVal.str)),
   ("day_wise_suggestions", .dict (dayWise recommended_attractions trip_duration)),
   ("summary", .str ("Found " ++ toString recommended_attractions.length ++
      " attractions matching your preferences in " ++ destination))]

/-- The function-call descriptor handed to the dispatcher: `function_call.name`
and `dict(function_call.args)`. -/
structure FunctionCall where
  name : String
  args : PyDict
deriving Repr

/-- `function_args[key]`: `ok` of the value when the key is bound, otherwise
the `KeyError` whose Python `str(e)` is the key wrapped in single quotes. -/
def getArg (args : PyDict) (key : String) : Except String PyVal :=
  match lookup args key with
  | some v => .ok v
  | Option.none => .error ("\x27" ++ key ++ "\x27")

/-- View of an argument value at its schema-declared string type.  The Gemini
function declarations fix each argument's JSON type, so in the executions the
claims range over the value is a string; other shapes do not occur there. -/
def asStr : PyVal → String
  | .str s => s
  | _ => ""

/-- View of an argument value at its schema-declared integer type. -/
def asInt : PyVal → Int
  | .int n => n
  | _ => 0

/-- View of an argument value at its schema-declared string-array type. -/
def asStrList : PyVal → List String
  | .list xs => xs.map asStr
  | _ => []

/-- The body of the `try` of `_execute_function_call`: route on the function
name, extract required arguments with `function_args[...]` (a missing key
raises `KeyError`, embedded as `Except.error`) and optional arguments with
`function_args.get(...)` and their defaults, and call the matching provider.
An unknown name returns the error dict normally (it is not an exception).
The extraction order matches Python's left-to-right evaluation of the keyword
arguments. -/
def dispatch (weather_api_key : Option String) (fc : FunctionCall) :
    Except String PyDict :=
  if fc.name = "getWeather" then do
    let location ← getArg fc.args "location"
    let dates ← getArg fc.args "dates"
    pure (getWeather weather_api_key (asStr location) (asStrList dates))
  else if fc.name = "getFlights" then do
    let from_location ← getArg fc.args "from_location"
    let to_location ← getArg fc.args "to_location"
    let departure_date ← getArg fc.args "departure_date"
    let return_date := (lookup fc.args "return_date").map asStr
    let travelers ← getArg fc.args "travelers"
    pure (getFlights (asStr from_location) (asStr to_location)
      (asStr departure_date) return_date (asInt travelers))
  else if fc.name = "getHotels" then do
    let destination ← getArg fc.args "destination"
    let check_in ← getArg fc.args "check_in"
    let check_out ← getArg fc.args "check_out"
    let travelers ← getArg fc.args "travelers"
    let budget_category := (lookup fc.args "budget_category").map asStr |>.getD "mid-range"
    pure (getHotels (asStr destination) (asStr check_in) (asStr check_out)
      (asInt travelers) budget_category)
  else if fc.name = "getAttractions" then do
    let destination ← getArg fc.args "destination"
    let preferences ← getArg fc.args "preferences"
    let trip_duration := (lookup fc.args "trip_duration").map asInt |>.getD 3
    pure (getAttractions (asStr destination) (asStrList preferences) trip_duration)
  else
    pure [("error", .str ("Unknown function: " ++ fc.name))]

/-- `_execute_function_call`: the `try`/`except` wrapper around `dispatch`.
Any exception raised inside becomes the dict
`error : "Function execution failed: " + str(e)`; the function itself never
raises. -/
def execute_function_call (weather_api_key : Option String) (fc : FunctionCall) :
    PyDict :=
  match dispatch weather_api_key fc with
  | .ok result => result
  | .error e => [("error", .str ("Function execution failed: " ++ e))]

/-- The per-function required-argument keys, exactly the keys the dispatcher
reads with `function_args[...]` (they agree with the `required` lists of the
Gemini function declarations), in the dispatcher's evaluation order. -/
def requiredKeys : String → List String
  | "getWeather" => ["location", "dates"]
  | "getFlights" => ["from_location", "to_location", "departure_date", "travelers"]
  | "getHotels" => ["destination", "check_in", "check_out", "travelers"]
  | "getAttractions" => ["destination", "preferences"]
  | _ => []

/-- The four known function names of the dispatch table. -/
def knownFunctions : List String :=
  ["getWeather", "getFlights", "getHotels", "getAttractions"]

/-- The first key of `keys` that is unbound in `args`, if any: the key whose
`KeyError` the dispatcher's left-to-right extraction raises first. -/
def firstMissing (args : PyDict) : List String → Option String
  | [] => Option.none
  | k :: rest =>
      match lookup args k with
      | Option.none => some k
      | some _ => firstMissing args rest

/-- JSON values as produced by `json.loads`.  Finite numbers are kept exactly
as rationals; the nonstandard literals Python additionally accepts
(`NaN`, `Infinity`, `-Infinity`) are kept symbolically. -/
inductive Json where
  | null
  | bool (b : Bool)
  | num (q : ℚ)
  | str (s : String)
  | arr (xs : List Json)
  | obj (kvs : List (String × Json))
  | nonfinite (lit : String)
deriving Repr

mutual

/-- The Python object `json.loads` builds from a JSON value. -/
def jsonToPy : Json → PyVal
  | .null => .noneVal
  | .bool b => .bool b
  | .num q => .rat q
  | .str s => .str s
  | .arr xs => .list (jsonListToPy xs)
  | .obj kvs => .dict (jsonObjToPy kvs)
  | .nonfinite lit => .nonfinite lit

/-- `jsonToPy` mapped over array elements. -/
def jsonListToPy : List Json → List PyVal
  | [] => []
  | x :: xs => jsonToPy x :: jsonListToPy xs

/-- `jsonToPy` mapped over object members. -/
def jsonObjToPy : List (String × Json) → List (String × PyVal)
  | [] => []
  | (k, v) :: rest => (k, jsonToPy v) :: jsonObjToPy rest

end

/-- JSON whitespace (the only characters `json.loads` skips between tokens). -/
def isJsonWs (c : Char) : Bool :=
  c = ' ' || c = '\t' || c = '\n' || c = '\r'

/-- Drop leading JSON whitespace. -/
def skipWs : List Char → List Char
  | [] => []
  | c :: rest => if isJsonWs c then skipWs rest else c :: rest

/-- Match the expected literal characters, returning the remaining input. -/
def dropLit : List Char → List Char → Option (List Char)
  | [], s => some s
  | l :: ls, c :: rest => if c = l then dropLit ls rest else Option.none
  | _ :: _, [] => Option.none

/-- Take the maximal run of decimal digits. -/
def takeDigits : List Char → List Char × List Char
  | [] => ([], [])
  | c :: rest =>
      if c.isDigit then
        let (ds, r) := takeDigits rest
        (c :: ds, r)
      else ([], c :: rest)

/-- Decimal digits to a natural number (most significant first). -/
def digitsToNat (acc : Nat) : List Char → Nat
  | [] => acc
  | c :: rest => digitsToNat (acc * 10 + (c.toNat - 48)) rest

/-- The optional fraction part `.[0-9]+` of a JSON number, as a rational. -/
def parseFrac : List Char → Option (ℚ × List Char)
  | '.' :: rest =>
      let (fds, r) := takeDigits rest
      if fds.isEmpty then Option.none
      else some ((digitsToNat 0 fds : ℚ) / ((10 : ℚ) ^ fds.length), r)
  | s => some (0, s)

/-- The optional exponent part `[eE][+-]?[0-9]+` of a JSON number. -/
def parseExp : List Char → Option (Int × List Char)
  | [] => some (0, [])
  | c :: rest =>
      if c = 'e' || c = 'E' then
        let (sgn, r1) : Int × List Char :=
          match rest with
          | '+' :: r => (1, r)
          | '-' :: r => (-1, r)
          | r => (1, r)
        let (eds, r2) := takeDigits r1
        if eds.isEmpty then Option.none
        else some (sgn * (digitsToNat 0 eds : Int), r2)
      else some (0, c :: rest)

/-- A JSON number `-?(0|[1-9][0-9]*)(\.[0-9]+)?([eE][+-]?[0-9]+)?`, read
exactly as a rational. -/
def parseNumber (s : List Char) : Option (Json × List Char) :=
  let (sgn, s1) : ℚ × List Char :=
    match s with
    | '-' :: rest => (-1, rest)
    | _ => (1, s)
  match s1 with
  | [] => Option.none
  | c :: _ =>
      if !c.isDigit then Option.none
      else
        let (ids, s2) := takeDigits s1
        if 1 < ids.length && ids.headD '0' = '0' then Option.none
        else do
          let (f, s3) ← parseFrac s2
          let (e, s4) ← parseExp s3
          pure (Json.num (sgn * ((digitsToNat 0 ids : ℚ) + f) * (10 : ℚ) ^ e), s4)

/-- One hexadecimal digit of a `\u` escape. -/
def parseHexDigit (c : Char) : Option Nat :=
  if c.isDigit then some (c.toNat - 48)
  else if 'a' ≤ c && c ≤ 'f' then some (c.toNat - 87)
  else if 'A' ≤ c && c ≤ 'F' then some (c.toNat - 55)
  else Option.none

/-- The body of a JSON string after the opening quote: plain characters and
the standard escapes, up to the closing quote.  (`\u` escapes are read as a
single code point each; surrogate-pair combining is not modelled, and no
verified claim depends on string-escape contents.)  Unescaped control
characters are rejected, as in Python's strict mode. -/
def parseJsonStringBody (acc : List Char) : List Char → Option (String × List Char)
  | [] => Option.none
  | '"' :: rest => some (String.mk acc.reverse, rest)
  | '\\' :: esc =>
      match esc with
      | '"' :: rest => parseJsonStringBody ('"' :: acc) rest
      | '\\' :: rest => parseJsonStringBody ('\\' :: acc) rest
      | '/' :: rest => parseJsonStringBody ('/' :: acc) rest
      | 'b' :: rest => parseJsonStringBody ('\x08' :: acc) rest
      | 'f' :: rest => parseJsonStringBody ('\x0c' :: acc) rest
      | 'n' :: rest => parseJsonStringBody ('\n' :: acc) rest
      | 'r' :: rest => parseJsonStringBody ('\r' :: acc) rest
      | 't' :: rest => parseJsonStringBody ('\t' :: acc) rest
      | 'u' :: a :: b :: c :: d :: rest =>
          match parseHexDigit a, parseHexDigit b, parseHexDigit c, parseHexDigit d with
          | some ha, some hb, some hc, some hd =>
              parseJsonStringBody
                (Char.ofNat (((ha * 16 + hb) * 16 + hc) * 16 + hd) :: acc) rest
          | _, _, _, _ => Option.none
      | _ => Option.none
  | c :: rest =>
      if c.toNat < 32 then Option.none else parseJsonStringBody (c :: acc) rest

mutual

/-- One JSON value, by recursive descent with explicit fuel. -/
def parseValue : Nat → List Char → Option (Json × List Char)
  | 0, _ => Option.none
  | fuel + 1, s =>
      match skipWs s with
      | [] => Option.none
      | c :: rest =>
          if c = '"' then
            match parseJsonStringBody [] rest with
            | some (str, r) => some (Json.str str, r)
            | Option.none => Option.none
          else if c = '[' then
            match skipWs rest with
            | ']' :: r => some (Json.arr [], r)
            | r2 =>
                match parseArrayItems fuel r2 with
                | some (xs, r) => some (Json.arr xs, r)
                | Option.none => Option.none
          else if c = '\x7b' then
            match skipWs rest with
            | '\x7d' :: r => some (Json.obj [], r)
            | r2 =>
                match parseObjItems fuel r2 with
                | some (kvs, r) => some (Json.obj kvs, r)
                | Option.none => Option.none
          else if c = 'n' then
            match dropLit ['u', 'l', 'l'] rest with
            | some r => some (Json.null, r)
            | Option.none => Option.none
          else if c = 't' then
            match dropLit ['r', 'u', 'e'] rest with
            | some r => some (Json.bool true, r)
            | Option.none => Option.none
          else if c = 'f' then
            match dropLit ['a', 'l', 's', 'e'] rest with
            | some r => some (Json.bool false, r)
            | Option.none => Option.none
          else if c = 'N' then
            match dropLit ['a', 'N'] rest with
            | some r => some (Json.nonfinite "NaN", r)
            | Option.none => Option.none
          else if c = 'I' then
            match dropLit ['n', 'f', 'i', 'n', 'i', 't', 'y'] rest with
            | some r => some (Json.nonfinite "Infinity", r)
            | Option.none => Option.none
          else if c = '-' then
            match rest with
            | 'I' :: r2 =>
                match dropLit ['n', 'f', 'i', 'n', 'i', 't', 'y'] r2 with
                | some r => some (Json.nonfinite "-Infinity", r)
                | Option.none => Option.none
            | _ => parseNumber (c :: rest)
          else parseNumber (c :: rest)

/-- The comma-separated items of a non-empty JSON array, up to `]`. -/
def parseArrayItems : Nat → List Char → Option (List Json × List Char)
  | 0, _ => Option.none
  | fuel + 1, s =>
      match parseValue fuel s with
      | Option.none => Option.none
      | some (v, r) =>
          match skipWs r with
          | ',' :: r2 =>
              match parseArrayItems fuel r2 with
              | some (vs, r3) => some (v :: vs, r3)
              | Option.none => Option.none
          | ']' :: r2 => some ([v], r2)
          | _ => Option.none

/-- The comma-separated members of a non-empty JSON object, up to the closing
brace. -/
def parseObjItems : Nat → List Char → Option (List (String × Json) × List Char)
  | 0, _ => Option.none
  | fuel + 1, s =>
      match skipWs s with
      | '"' :: r =>
          match parseJsonStringBody [] r with
          | some (key, r1) =>
              match skipWs r1 with
              | ':' :: r2 =>
                  match parseValue fuel r2 with
                  | some (v, r3) =>
                      match skipWs r3 with
                      | ',' :: r4 =>
                          match parseObjItems fuel r4 with
                          | some (kvs, r5) => some ((key, v) :: kvs, r5)
                          | Option.none => Option.none
                      | '\x7d' :: r4 => some ([(key, v)], r4)
                      | _ => Option.none
                  | Option.none => Option.none
              | _ => Option.none
          | Option.none => Option.none
      | _ => Option.none

end

/-- `json.loads`: parse one JSON value and require only whitespace after it;
`none` embeds `json.JSONDecodeError`.  The fuel bound is generous: a value
nests at most as deep as the input is long. -/
def json_loads (s : String) : Option Json :=
  match parseValue (2 * s.length + 2) s.data with
  | some (v, rest) => if (skipWs rest).isEmpty then some v else Option.none
  | Option.none => Option.none

/-- Abstraction of one `plan_trip` conversation with the hosted AI service:
the function-call descriptors the service issued (each is answered through
`execute_function_call` and fed back), followed by the outcome of the
exchange — either the final reply text (`response.text`) or the message of an
exception raised anywhere in prompt building, the service exchange or the
loop (`Except.error`). -/
structure ChatTrace where
  calls : List FunctionCall
  outcome : Except String String

/-- `GeminiTravelAssistant.plan_trip`.  Everything up to obtaining the final
reply is abstracted by the `ChatTrace`; the parameters other than
`destination` only influence the prompt text inside the trace, and
`destination` is the one parameter the error path reads.  The outer
`try`/`except` turns any raised exception into the structured error dict
paired with the raw exception message; a final reply that fails JSON parsing
is wrapped in the parse-fallback dict and the call still returns normally. -/
def plan_trip (weather_api_key : Option String) (destination : String)
    (trace : ChatTrace) : PyVal × String :=
  let _function_results := trace.calls.map (execute_function_call weather_api_key)
  match trace.outcome with
  | .error msg =>
      (.dict [("error", .str ("Trip planning failed: " ++ msg)),
              ("destination", .str destination),
              ("status", .str "error")], msg)
  | .ok raw_response =>
      match json_loads raw_response with
      | some v => (jsonToPy v, raw_response)
      | Option.none =>
          (.dict [("error", .str "Failed to parse AI response"),
                  ("raw_response", .str raw_response)], raw_response)

/-- A field of a dict-shaped value (used to read fields of offers/entries). -/
def fieldOf (v : PyVal) (key : String) : Option PyVal :=
  match v with
  | .dict kvs => lookup kvs key
  | _ => Option.none

/-- The `hotels` list of a `getHotels` result. -/
def hotelsOf (m : PyDict) : List PyVal :=
  match lookup m "hotels" with
  | some (.list l) => l
  | _ => []

/-- The `outbound_flights` list of a `getFlights` result. -/
def outboundOf (m : PyDict) : List PyVal :=
  match lookup m "outbound_flights" with
  | some (.list l) => l
  | _ => []

/-- The `return_flights` list of a `getFlights` result. -/
def returnFlightsOf (m : PyDict) : List PyVal :=
  match lookup m "return_flights" with
  | some (.list l) => l
  | _ => []

/-- The string elements of a list of values. -/
def strsOnly : List PyVal → List String
  | [] => []
  | .str s :: rest => s :: strsOnly rest
  | _ :: rest => strsOnly rest

/-- The strings of the `recommended_attractions` list of a `getAttractions`
result. -/
def recommendedOf (m : PyDict) : List String :=
  match lookup m "recommended_attractions" with
  | some (.list l) => strsOnly l
  | _ => []

/-- The day entries of the `day_wise_suggestions` dict of a `getAttractions`
result. -/
def dayWiseOf (m : PyDict) : PyDict :=
  match lookup m "day_wise_suggestions" with
  | some (.dict kvs) => kvs
  | _ => []

/-- The length of a list-shaped value. -/
def pyListLength : PyVal → Nat
  | .list l => l.length
  | _ => 0

/-- Modelled from the spec words for comparison with the code: the spec
states the second hotel's price as `round(base_price × 1.3)` where the code
computes `int(base_price * 1.3)`.  For every multiple of 10 — in particular
the three base prices of the table — the two agree. -/
def roundMulOnePointThree (base : Nat) : Nat := (base * 13 + 5) / 10

/-! ### Helper lemmas -/

theorem strsOnly_map_str (l : List String) : strsOnly (l.map PyVal.str) = l := by
  induction l with
  | nil => rfl
  | cons a rest ih => simp [strsOnly, ih]

theorem strsOnly_take_append (n : Nat) (l r : List String) :
    strsOnly ((l.map PyVal.str ++ r.map PyVal.str).take n) = (l ++ r).take n := by
  rw [← List.map_append, ← List.map_take, strsOnly_map_str]

theorem firstMissing_spec {args : PyDict} {keys : List String} {k : String}
    (h : firstMissing args keys = some k) :
    k ∈ keys ∧ lookup args k = Option.none := by
  induction keys with
  | nil => simp [firstMissing] at h
  | cons a rest ih =>
      cases hla : lookup args a with
      | none =>
          simp [firstMissing, hla] at h
          subst h
          exact ⟨List.mem_cons_self a rest, hla⟩
      | some v =>
          simp [firstMissing, hla] at h
          rcases ih h with ⟨hm, hn⟩
          exact ⟨List.mem_cons_of_mem a hm, hn⟩

theorem firstMissing_of_exists {args : PyDict} {keys : List String}
    (h : ∃ k ∈ keys, lookup args k = Option.none) :
    ∃ k, firstMissing args keys = some k := by
  induction keys with
  | nil => simp at h
  | cons a rest ih =>
      cases hla : lookup args a with
      | none => exact ⟨a, by simp [firstMissing, hla]⟩
      | some v =>
          rcases h with ⟨k, hk, hkn⟩
          rcases List.mem_cons.mp hk with rfl | hk2
          · rw [hla] at hkn; cases hkn
          · rcases ih ⟨k, hk2, hkn⟩ with ⟨k2, hfm⟩
            exact ⟨k2, by simp [firstMissing, hla, hfm]⟩

theorem execute_weather_missing (key : Option String) (args : PyDict) (k : String)
    (h : firstMissing args ["location", "dates"] = some k) :
    execute_function_call key ⟨"getWeather", args⟩ =
      [("error", PyVal.str ("Function execution failed: " ++ ("\x27" ++ k ++ "\x27")))] := by
  cases h1 : lookup args "location" with
  | none =>
      simp [firstMissing, h1] at h
      subst h
      simp [execute_function_call, dispatch, getArg, h1, Except.instMonad,
        Except.bind, Except.map, Except.pure]
  | some v =>
      cases h2 : lookup args "dates" with
      | none =>
          simp [firstMissing, h1, h2] at h
          subst h
          simp [execute_function_call, dispatch, getArg, h1, h2, Except.instMonad,
            Except.bind, Except.map, Except.pure]
      | some w =>
          simp [firstMissing, h1, h2] at h

theorem execute_flights_missing (key : Option String) (args : PyDict) (k : String)
    (h : firstMissing args ["from_location", "to_location", "departure_date", "travelers"]
           = some k) :
    execute_function_call key ⟨"getFlights", args⟩ =
      [("error", PyVal.str ("Function execution failed: " ++ ("\x27" ++ k ++ "\x27")))] := by
  cases h1 : lookup args "from_location" with
  | none =>
      simp [firstMissing, h1] at h
      subst h
      simp [execute_function_call, dispatch, getArg, h1, Except.instMonad,
        Except.bind, Except.map, Except.pure]
  | some v1 =>
      cases h2 : lookup args "to_location" with
      | none =>
          simp [firstMissing, h1, h2] at h
          subst h
          simp [execute_function_call, dispatch, getArg, h1, h2, Except.instMonad,
            Except.bind, Except.map, Except.pure]
      | some v2 =>
          cases h3 : lookup args "departure_date" with
          | none =>
              simp [firstMissing, h1, h2, h3] at h
              subst h
              simp [execute_function_call, dispatch, getArg, h1, h2, h3,
                Except.instMonad, Except.bind, Except.map, Except.pure]
          | some v3 =>
              cases h4 : lookup args "travelers" with
              | none =>
                  simp [firstMissing, h1, h2, h3, h4] at h
                  subst h
                  simp [execute_function_call, dispatch, getArg, h1, h2, h3, h4,
                    Except.instMonad, Except.bind, Except.map, Except.pure]
              | some v4 =>
                  simp [firstMissing, h1, h2, h3, h4] at h

theorem execute_hotels_missing (key : Option String) (args : PyDict) (k : String)
    (h : firstMissing args ["destination", "check_in", "check_out", "travelers"]
           = some k) :
    execute_function_call key ⟨"getHotels", args⟩ =
      [("error", PyVal.str ("Function execution failed: " ++ ("\x27" ++ k ++ "\x27")))] := by
  cases h1 : lookup args "destination" with
  | none =>
      simp [firstMissing, h1] at h
      subst h
      simp [execute_function_call, dispatch, getArg, h1, Except.instMonad,
        Except.bind, Except.map, Except.pure]
  | some v1 =>
      cases h2 : lookup args "check_in" with
      | none =>
          simp [firstMissing, h1, h2] at h
          subst h
          simp [execute_function_call, dispatch, getArg, h1, h2, Except.instMonad,
            Except.bind, Except.map, Except.pure]
      | some v2 =>
          cases h3 : lookup args "check_out" with
          | none =>
              simp [firstMissing, h1, h2, h3] at h
              subst h
              simp [execute_function_call, dispatch, getArg, h1, h2, h3,
                Except.instMonad, Except.bind, Except.map, Except.pure]
          | some v3 =>
              cases h4 : lookup args "travelers" with
              | none =>
                  simp [firstMissing, h1, h2, h3, h4] at h
                  subst h
                  simp [execute_function_call, dispatch, getArg, h1, h2, h3, h4,
                    Except.instMonad, Except.bind, Except.map, Except.pure]
              | some v4 =>
                  simp [firstMissing, h1, h2, h3, h4] at h

theorem execute_attractions_missing (key : Option String) (args : PyDict) (k : String)
    (h : firstMissing args ["destination", "preferences"] = some k) :
    execute_function_call key ⟨"getAttractions", args⟩ =
      [("error", PyVal.str ("Function execution failed: " ++ ("\x27" ++ k ++ "\x27")))] := by
  cases h1 : lookup args "destination" with
  | none =>
      simp [firstMissing, h1] at h
      subst h
      simp [execute_function_call, dispatch, getArg, h1, Except.instMonad,
        Except.bind, Except.map, Except.pure]
  | some v1 =>
      cases h2 : lookup args "preferences" with
      | none =>
          simp [firstMissing, h1, h2] at h
          subst h
          simp [execute_function_call, dispatch, getArg, h1, h2, Except.instMonad,
            Except.bind, Except.map, Except.pure]
      | some v2 =>
          simp [firstMissing, h1, h2] at h

/-! ### Claims -/

/-- C1: for every function-call descriptor whose name is not one of
`getWeather`, `getFlights`, `getHotels`, `getAttractions`, the dispatcher
returns the mapping `error : "Unknown function: <name>"` with the offending
name interpolated; the embedded dispatcher is a total function, so nothing
escapes the dispatch boundary. -/
theorem unknown_function_dispatch (weather_api_key : Option String)
    (fc : FunctionCall) (h : fc.name ∉ knownFunctions) :
    execute_function_call weather_api_key fc =
      [("error", PyVal.str ("Unknown function: " ++ fc.name))] := by
  simp only [knownFunctions, List.mem_cons, List.not_mem_nil, or_false,
    not_or] at h
  obtain ⟨h1, h2, h3, h4⟩ := h
  simp [execute_function_call, dispatch, h1, h2, h3, h4, Except.instMonad,
    Except.pure]

/-- Witness for C1 at the concrete unknown name `getTrains`. -/
theorem unknown_function_dispatch_witness :
    execute_function_call Option.none ⟨"getTrains", []⟩ =
      [("error", PyVal.str ("Unknown function: " ++ "getTrains"))] :=
  unknown_function_dispatch Option.none ⟨"getTrains", []⟩ (by decide)

/-- C2: for every known function name, when a required argument is absent
from the argument mapping the dispatcher surfaces a missing-key failure
(the first unbound required key, in the evaluation order of the keyword
arguments, becomes the `KeyError` that the `except` clause turns into the
error dict): the missing key is never replaced by a default, and the caller
of `_execute_function_call` receives the failure dict. -/
theorem missing_required_key_surfaces (weather_api_key : Option String)
    (fc : FunctionCall) (hknown : fc.name ∈ knownFunctions)
    (hmiss : ∃ k ∈ requiredKeys fc.name, lookup fc.args k = Option.none) :
    ∃ k ∈ requiredKeys fc.name, lookup fc.args k = Option.none ∧
      execute_function_call weather_api_key fc =
        [("error", PyVal.str ("Function execution failed: " ++ ("\x27" ++ k ++ "\x27")))] := by
  obtain ⟨name, args⟩ := fc
  simp only [knownFunctions, List.mem_cons, List.not_mem_nil, or_false] at hknown
  rcases hknown with h | h | h | h <;> subst h
  · rcases firstMissing_of_exists hmiss with ⟨k, hfm⟩
    rcases firstMissing_spec hfm with ⟨hkmem, hknone⟩
    exact ⟨k, hkmem, hknone, execute_weather_missing weather_api_key args k hfm⟩
  · rcases firstMissing_of_exists hmiss with ⟨k, hfm⟩
    rcases firstMissing_spec hfm with ⟨hkmem, hknone⟩
    exact ⟨k, hkmem, hknone, execute_flights_missing weather_api_key args k hfm⟩
  · rcases firstMissing_of_exists hmiss with ⟨k, hfm⟩
    rcases firstMissing_spec hfm with ⟨hkmem, hknone⟩
    exact ⟨k, hkmem, hknone, execute_hotels_missing weather_api_key args k hfm⟩
  · rcases firstMissing_of_exists hmiss with ⟨k, hfm⟩
    rcases firstMissing_spec hfm with ⟨hkmem, hknone⟩
    exact ⟨k, hkmem, hknone, execute_attractions_missing weather_api_key args k hfm⟩

/-- Witness for C2: a `getWeather` call binding only `location` fails on the
missing `dates` key. -/
theorem missing_required_key_surfaces_witness :
    ∃ k ∈ requiredKeys "getWeather",
      lookup [("location", PyVal.str "Goa")] k = Option.none ∧
        execute_function_call Option.none
            ⟨"getWeather", [("location", PyVal.str "Goa")]⟩ =
          [("error", PyVal.str ("Function execution failed: " ++ ("\x27" ++ k ++ "\x27")))] :=
  missing_required_key_surfaces Option.none
    ⟨"getWeather", [("location", PyVal.str "Goa")]⟩ (by decide)
    ⟨"dates", by decide, rfl⟩

/-- C3 counterexample: the traveler count is NOT an optional argument of the
dispatcher — a `getHotels` descriptor with `travelers` unbound yields the
missing-key error dict, not a call with the claimed default `travelers = 1`:
the dispatcher reads `function_args["travelers"]`, not a `.get` with
default. -/
theorem travelers_not_defaulted_counterexample :
    execute_function_call Option.none
        ⟨"getHotels", [("destination", PyVal.str "Goa"),
                       ("check_in", PyVal.str "2025-09-15"),
                       ("check_out", PyVal.str "2025-09-18")]⟩ =
      [("error", PyVal.str "Function execution failed: \x27travelers\x27")] ∧
    execute_function_call Option.none
        ⟨"getHotels", [("destination", PyVal.str "Goa"),
                       ("check_in", PyVal.str "2025-09-15"),
                       ("check_out", PyVal.str "2025-09-18")]⟩ ≠
      getHotels "Goa" "2025-09-15" "2025-09-18" 1 "mid-range" := by
  have hval : execute_function_call Option.none
      ⟨"getHotels", [("destination", PyVal.str "Goa"),
                     ("check_in", PyVal.str "2025-09-15"),
                     ("check_out", PyVal.str "2025-09-18")]⟩ =
        [("error", PyVal.str "Function execution failed: \x27travelers\x27")] := rfl
  refine ⟨hval, ?_⟩
  rw [hval]
  simp [getHotels]

/-- C3 amended: in the dispatcher, the genuinely optional arguments take
their documented defaults when absent — budget category defaults to
`"mid-range"` (`getHotels`), trip duration defaults to `3`
(`getAttractions`), and the return date defaults to absent (`getFlights`) —
while the traveler count is a required argument at the dispatch boundary for
both `getFlights` and `getHotels`: when `travelers` is unbound the
dispatcher returns the missing-key error dict instead of defaulting it
to 1 (that default lives only in the provider method signatures, which the
dispatcher never exercises). -/
theorem dispatcher_optional_defaults (weather_api_key : Option String) :
    (∀ (args : PyDict) (vd vci vco vt : PyVal),
       lookup args "destination" = some vd →
       lookup args "check_in" = some vci →
       lookup args "check_out" = some vco →
       lookup args "travelers" = some vt →
       lookup args "budget_category" = Option.none →
       execute_function_call weather_api_key ⟨"getHotels", args⟩ =
         getHotels (asStr vd) (asStr vci) (asStr vco) (asInt vt) "mid-range") ∧
    (∀ (args : PyDict) (vd vp : PyVal),
       lookup args "destination" = some vd →
       lookup args "preferences" = some vp →
       lookup args "trip_duration" = Option.none →
       execute_function_call weather_api_key ⟨"getAttractions", args⟩ =
         getAttractions (asStr vd) (asStrList vp) 3) ∧
    (∀ (args : PyDict) (vf vt vdd vtr : PyVal),
       lookup args "from_location" = some vf →
       lookup args "to_location" = some vt →
       lookup args "departure_date" = some vdd →
       lookup args "travelers" = some vtr →
       lookup args "return_date" = Option.none →
       execute_function_call weather_api_key ⟨"getFlights", args⟩ =
         getFlights (asStr vf) (asStr vt) (asStr vdd) Option.none (asInt vtr)) ∧
    (∀ (args : PyDict) (vd vci vco : PyVal),
       lookup args "destination" = some vd →
       lookup args "check_in" = some vci →
       lookup args "check_out" = some vco →
       lookup args "travelers" = Option.none →
       execute_function_call weather_api_key ⟨"getHotels", args⟩ =
         [("error", PyVal.str ("Function execution failed: " ++
            ("\x27" ++ "travelers" ++ "\x27")))]) := by
  refine ⟨?_, ?_, ?_, ?_⟩
  · intro args vd vci vco vt h1 h2 h3 h4 h5
    simp [execute_function_call, dispatch, getArg, h1, h2, h3, h4, h5,
      Except.instMonad, Except.bind, Except.map, Except.pure]
  · intro args vd vp h1 h2 h3
    simp [execute_function_call, dispatch, getArg, h1, h2, h3,
      Except.instMonad, Except.bind, Except.map, Except.pure]
  · intro args vf vt vdd vtr h1 h2 h3 h4 h5
    simp [execute_function_call, dispatch, getArg, h1, h2, h3, h4, h5,
      Except.instMonad, Except.bind, Except.map, Except.pure]
  · intro args vd vci vco h1 h2 h3 h4
    exact execute_hotels_missing weather_api_key args "travelers"
      (by simp [firstMissing, h1, h2, h3, h4])

/-- Witness for the amended C3: a `getHotels` call without `budget_category`
runs with the `"mid-range"` default. -/
theorem dispatcher_optional_defaults_witness :
    execute_function_call Option.none
        ⟨"getHotels", [("destination", PyVal.str "Goa"),
                       ("check_in", PyVal.str "2025-09-15"),
                       ("check_out", PyVal.str "2025-09-18"),
                       ("travelers", PyVal.int 2)]⟩ =
      getHotels "Goa" "2025-09-15" "2025-09-18" 2 "mid-range" :=
  (dispatcher_optional_defaults Option.none).1
    [("destination", PyVal.str "Goa"),
     ("check_in", PyVal.str "2025-09-15"),
     ("check_out", PyVal.str "2025-09-18"),
     ("travelers", PyVal.int 2)]
    (PyVal.str "Goa") (PyVal.str "2025-09-15") (PyVal.str "2025-09-18")
    (PyVal.int 2) rfl rfl rfl rfl rfl

/-- C4: for every destination, check-in, check-out and traveler count,
`getHotels` returns exactly two hotel offers; prices come from the fixed
base-price table (1500 for `budget`, 3000 for `mid-range`, 8000 for
`luxury`, mid-range for anything unrecognized), and the second hotel's
per-night price equals `round(base_price × 1.3)` — the code's
`int(base_price * 1.3)` coincides with the rounding at all three table
values. -/
theorem hotels_pricing (destination check_in check_out : String)
    (travelers : Int) (budget_category : String) :
    (hotelsOf (getHotels destination check_in check_out travelers budget_category)).length = 2 ∧
    (hotelsOf (getHotels destination check_in check_out travelers budget_category)).map
        (fieldOf · "price_per_night") =
      [some (PyVal.str ("₹" ++ toString (hotelBasePrice budget_category))),
       some (PyVal.str ("₹" ++ toString (roundMulOnePointThree (hotelBasePrice budget_category))))] ∧
    hotelBasePrice budget_category =
      (if budget_category = "budget" then 1500
       else if budget_category = "luxury" then 8000 else 3000) := by
  have hbase : hotelBasePrice budget_category =
      (if budget_category = "budget" then 1500
       else if budget_category = "luxury" then 8000 else 3000) := by
    by_cases h1 : budget_category = "budget"
    · simp [hotelBasePrice, price_ranges, h1]
    · by_cases h2 : budget_category = "mid-range"
      · simp [hotelBasePrice, price_ranges, h1, h2]
      · by_cases h3 : budget_category = "luxury"
        · simp [hotelBasePrice, price_ranges, h1, h2, h3]
        · simp [hotelBasePrice, price_ranges, h1, h2, h3]
  have hrnd : intMulOnePointThree (hotelBasePrice budget_category) =
      roundMulOnePointThree (hotelBasePrice budget_category) := by
    rw [hbase]
    split_ifs <;> rfl
  refine ⟨?_, ?_, hbase⟩
  · simp [hotelsOf, getHotels, lookup]
  · simp [hotelsOf, getHotels, fieldOf, lookup, ← hrnd]

/-- C5: `getAttractions` takes, for each preference naming a known category
(compared lowercased), the first 2 attractions of that category in order,
appends the 2 universal attractions, truncates the recommended list to
`2 × trip_duration` entries, and buckets the (untruncated) list into
`min(trip_duration, count/2)` days of exactly 2 attractions each; for
preferences `["beach", "food"]` and trip duration 2 the recommended list has
at most 4 entries and contains an entry of each matching category. -/
theorem attractions_selection (destination : String) (prefs : List String)
    (dur : Int) (hdur : 0 ≤ dur) :
    matchedAttractions prefs =
      prefs.flatMap (fun p => ((attraction_categories (pyLower p)).getD []).take 2) ∧
    recommendedOf (getAttractions destination prefs dur) =
      (matchedAttractions prefs ++ generalAttractions).take (dur * 2).toNat ∧
    (dayWiseOf (getAttractions destination prefs dur)).length =
      (min dur (((matchedAttractions prefs ++ generalAttractions).length : Int) / 2)).toNat ∧
    (∀ e ∈ dayWiseOf (getAttractions destination prefs dur), pyListLength e.2 = 2) ∧
    (recommendedOf (getAttractions destination ["beach", "food"] 2)).length ≤ 4 ∧
    "Baga Beach" ∈ recommendedOf (getAttractions destination ["beach", "food"] 2) ∧
    "Thalassa Restaurant" ∈ recommendedOf (getAttractions destination ["beach", "food"] 2) := by
  have hslice : ¬ (dur * 2 < 0) := by omega
  have hconc : recommendedOf (getAttractions destination ["beach", "food"] 2) =
      ["Baga Beach", "Calangute Beach", "Thalassa Restaurant", "Fisherman\x27s Wharf"] := rfl
  refine ⟨?_, ?_, ?_, ?_, ?_, ?_, ?_⟩
  · induction prefs with
    | nil => rfl
    | cons p rest ih =>
        cases h : attraction_categories (pyLower p) <;>
          simp [matchedAttractions, ih, h]
  · simp [recommendedOf, getAttractions, lookup, pySliceTo, hslice,
      strsOnly_take_append]
  · simp [dayWiseOf, getAttractions, lookup, dayWise]
  · intro e he
    have hdw : dayWiseOf (getAttractions destination prefs dur) =
        dayWise (matchedAttractions prefs ++ generalAttractions) dur := rfl
    rw [hdw] at he
    set full := matchedAttractions prefs ++ generalAttractions with hfull
    simp only [dayWise] at he
    rcases List.mem_map.mp he with ⟨i, hi, rfl⟩
    simp only [List.mem_range] at hi
    have hle : i * 2 + 2 ≤ full.length := by omega
    simp [pyListLength, List.length_take, List.length_drop]
    omega
  · simp [hconc]
  · simp [hconc]
  · simp [hconc]

/-- C6 counterexample: the claim's "the return-flight list is non-empty
exactly when a return date is present" fails for a present but empty return
date: the code tests Python truthiness (`if not return_date`), so
`return_date = ""` is present yet yields an empty return-flight list. -/
theorem flights_return_empty_string_counterexample :
    (some "" : Option String).isSome = true ∧
    returnFlightsOf (getFlights "Delhi" "Goa" "2025-09-15" (some "") 2) = [] :=
  ⟨rfl, rfl⟩

/-- C6 amended: every flight offer's price scales linearly with the traveler
count — the ₹4500, ₹5200 and ₹4800 base fares are priced at
`base × travelers` (so travelers = 2 yields ₹9000 on the ₹4500 fare) — and
the return-flight list is non-empty exactly when a non-empty return date is
present (a present but empty return-date string counts as absent, by the
code's truthiness test). -/
theorem flights_linear_pricing (from_location to_location departure_date : String)
    (return_date : Option String) (travelers : Int) :
    (outboundOf (getFlights from_location to_location departure_date
        return_date travelers)).map (fieldOf · "price") =
      [some (PyVal.str ("₹" ++ toString (4500 * travelers))),
       some (PyVal.str ("₹" ++ toString (5200 * travelers)))] ∧
    (returnFlightsOf (getFlights from_location to_location departure_date
        return_date travelers)).map (fieldOf · "price") =
      (if strTruthy return_date then
        [some (PyVal.str ("₹" ++ toString (4800 * travelers)))] else []) ∧
    (returnFlightsOf (getFlights from_location to_location departure_date
        return_date travelers) ≠ [] ↔ strTruthy return_date = true) ∧
    (outboundOf (getFlights from_location to_location departure_date
        return_date 2)).map (fieldOf · "price") =
      [some (PyVal.str "₹9000"), some (PyVal.str "₹10400")] := by
  have hconc : (outboundOf (getFlights from_location to_location departure_date
      return_date 2)).map (fieldOf · "price") =
      [some (PyVal.str "₹9000"), some (PyVal.str "₹10400")] := rfl
  refine ⟨?_, ?_, ?_, hconc⟩ <;>
  cases hrd : strTruthy return_date <;>
    simp [getFlights, outboundOf, returnFlightsOf, fieldOf, lookup, hrd]

/-- Witness for C5 at destination `Goa`, preferences `["beach", "food"]`,
trip duration 2. -/
theorem attractions_selection_witness :
    matchedAttractions ["beach", "food"] =
      (["beach", "food"] : List String).flatMap
        (fun p => ((attraction_categories (pyLower p)).getD []).take 2) ∧
    recommendedOf (getAttractions "Goa" ["beach", "food"] 2) =
      (matchedAttractions ["beach", "food"] ++ generalAttractions).take
        ((2 : Int) * 2).toNat ∧
    (dayWiseOf (getAttractions "Goa" ["beach", "food"] 2)).length =
      (min 2 (((matchedAttractions ["beach", "food"] ++
        generalAttractions).length : Int) / 2)).toNat ∧
    (∀ e ∈ dayWiseOf (getAttractions "Goa" ["beach", "food"] 2),
      pyListLength e.2 = 2) ∧
    (recommendedOf (getAttractions "Goa" ["beach", "food"] 2)).length ≤ 4 ∧
    "Baga Beach" ∈ recommendedOf (getAttractions "Goa" ["beach", "food"] 2) ∧
    "Thalassa Restaurant" ∈ recommendedOf (getAttractions "Goa" ["beach", "food"] 2) :=
  attractions_selection "Goa" ["beach", "food"] 2 (by decide)

/-- C7: whenever the final reply text fails JSON parsing, `plan_trip` returns
exactly the pair of the fallback dict
`error : "Failed to parse AI response", raw_response : <raw text>` and the
raw text itself — the call still succeeds. -/
theorem plan_trip_parse_fallback (weather_api_key : Option String)
    (destination : String) (calls : List FunctionCall) (raw : String)
    (h : json_loads raw = Option.none) :
    plan_trip weather_api_key destination ⟨calls, Except.ok raw⟩ =
      (PyVal.dict [("error", PyVal.str "Failed to parse AI response"),
                   ("raw_response", PyVal.str raw)], raw) := by
  simp [plan_trip, h]

/-- Witness for C7 at the concrete non-JSON final reply `not json`. -/
theorem plan_trip_parse_fallback_witness :
    plan_trip Option.none "Goa" ⟨[], Except.ok "not json"⟩ =
      (PyVal.dict [("error", PyVal.str "Failed to parse AI response"),
                   ("raw_response", PyVal.str "not json")], "not json") :=
  plan_trip_parse_fallback Option.none "Goa" [] "not json" rfl

/-- C8: `plan_trip` never lets an exception escape its public boundary: for
every destination, every conversation and every exception message arising in
prompt building, the service exchange, dispatching or parsing (the trace's
`error` outcome), the caller receives the pair of the structured dict
`error : "Trip planning failed: <message>", destination, status : "error"`
and the raw exception message; the embedded `plan_trip` is a total
function. -/
theorem plan_trip_exception_boundary (weather_api_key : Option String)
    (destination msg : String) (calls : List FunctionCall) :
    plan_trip weather_api_key destination ⟨calls, Except.error msg⟩ =
      (PyVal.dict [("error", PyVal.str ("Trip planning failed: " ++ msg)),
                   ("destination", PyVal.str destination),
                   ("status", PyVal.str "error")], msg) := rfl

/-- C9: `getWeather` always succeeds: no `error` key, a forecast with exactly
one entry per input date in input order (each entry carrying its date with
the branch's fixed simulated values), and a summary string; the embedded
function is total, and the `error/summary` conversion branch of the source
is unreachable because the `try` body is pure construction. -/
theorem weather_always_succeeds (weather_api_key : Option String)
    (location : String) (dates : List String) :
    lookup (getWeather weather_api_key location dates) "error" = Option.none ∧
    lookup (getWeather weather_api_key location dates) "forecast" =
      some (.list (dates.map
        (if strTruthy weather_api_key then forecastEntryApi else forecastEntryMock))) ∧
    (∀ d, fieldOf (forecastEntryMock d) "date" = some (PyVal.str d) ∧
          fieldOf (forecastEntryApi d) "date" = some (PyVal.str d)) ∧
    (∃ s, lookup (getWeather weather_api_key location dates) "summary" =
      some (PyVal.str s)) := by
  cases hk : strTruthy weather_api_key <;>
    simp [getWeather, lookup, hk, fieldOf, forecastEntryMock, forecastEntryApi]

/-- C10 (implicit): the `Found N attractions` summary of `getAttractions`
reports the length of the matched-plus-universal list before truncation, so
whenever `2 × trip_duration` is smaller than that length, `N` strictly
exceeds the number of entries actually returned; with preferences
`["beach", "food"]` and trip duration 1, two attractions are returned while
six are reported. -/
theorem attractions_summary_overcount (destination : String)
    (prefs : List String) (dur : Int) (h0 : 0 ≤ dur)
    (hlt : 2 * dur < ((matchedAttractions prefs ++ generalAttractions).length : Int)) :
    lookup (getAttractions destination prefs dur) "summary" =
      some (PyVal.str ("Found " ++
        toString (matchedAttractions prefs ++ generalAttractions).length ++
        " attractions matching your preferences in " ++ destination)) ∧
    (recommendedOf (getAttractions destination prefs dur)).length <
      (matchedAttractions prefs ++ generalAttractions).length ∧
    (recommendedOf (getAttractions destination ["beach", "food"] 1)).length = 2 ∧
    (matchedAttractions ["beach", "food"] ++ generalAttractions).length = 6 := by
  have hslice : ¬ (dur * 2 < 0) := by omega
  refine ⟨?_, ?_, rfl, rfl⟩
  · simp [getAttractions, lookup]
  · have hrec : recommendedOf (getAttractions destination prefs dur) =
        (matchedAttractions prefs ++ generalAttractions).take (dur * 2).toNat := by
      simp [recommendedOf, getAttractions, lookup, pySliceTo, hslice,
        strsOnly_take_append]
    rw [hrec, List.length_take]
    omega

/-- Witness for C10 at destination `Goa`, preferences `["beach", "food"]`,
trip duration 1. -/
theorem attractions_summary_overcount_witness :
    lookup (getAttractions "Goa" ["beach", "food"] 1) "summary" =
      some (PyVal.str ("Found " ++
        toString (matchedAttractions ["beach", "food"] ++ generalAttractions).length ++
        " attractions matching your preferences in " ++ "Goa")) ∧
    (recommendedOf (getAttractions "Goa" ["beach", "food"] 1)).length <
      (matchedAttractions ["beach", "food"] ++ generalAttractions).length ∧
    (recommendedOf (getAttractions "Goa" ["beach", "food"] 1)).length = 2 ∧
    (matchedAttractions ["beach", "food"] ++ generalAttractions).length = 6 :=
  attractions_summary_overcount "Goa" ["beach", "food"] 1 (by decide) (by decide)

end SmartTravelAssistant
